import Mathlib

/-!
# Verification of the classmate-connect reminder core

Shallow embedding of the reminder scheduling, triggering and persistent-alarm
subsystem of the classmate-connect repository:

* `src/lib/reminders.ts` — foreground poller, alert dispatcher, alarm loop,
  `calculateReminderTime`;
* `src/lib/db.ts` — the IndexedDB-backed store (events, reminders, settings);
* the custom service worker — background poller and alarm loop
  (`startAlarmLoop` / `stopAlarmLoop`).

Modelling conventions:

* Wall-clock local time is modelled as `Nat` milliseconds measured from a local
  midnight that falls on a Sunday, so `dayOfWeekOf t = (t / msPerDay) % 7`
  matches JavaScript `Date.getDay()` (Sunday = 0) and `msOfDay` is the local
  time of day.  The spec restricts the system to local wall-clock time, so no
  timezone/DST structure is modelled.
* `Date.now()` is passed explicitly as a `now : Nat` parameter.
* Side effects (tones, speech, notifications) are reified as an `Effect` trace.
* `Math.random()` in the greeting picker is passed as an explicit `pick : Nat`
  parameter (the spec itself asks for an explicit random source).
* `setInterval` handles are modelled as numbered `Timer` records held in a
  `liveTimers` list; `clearInterval` removes the handle from that list.
* A speech-synthesis failure (environment dependent) is modelled by a
  `speechOk : Bool` parameter.
-/

/-- `60 * 1000` milliseconds per minute. -/
def msPerMinute : Nat := 60000

/-- `24 * 60 * 60 * 1000` milliseconds per local day. -/
def msPerDay : Nat := 86400000

/-- JavaScript `Date.getDay()` of a model timestamp (Sunday = 0). -/
def dayOfWeekOf (t : Nat) : Nat := (t / msPerDay) % 7

/-- Local time of day, in milliseconds, of a model timestamp. -/
def msOfDay (t : Nat) : Nat := t % msPerDay

/-- Local midnight of the day containing `t`. -/
def startOfDayOf (t : Nat) : Nat := (t / msPerDay) * msPerDay

/-- `str.split(sep)` on the character list of a string: splits at every
occurrence of `sep`, keeping empty segments (as JavaScript does). -/
def splitOnChar (sep : Char) : List Char → List (List Char)
  | [] => [[]]
  | c :: cs =>
    match splitOnChar sep cs with
    | [] => if c = sep then [[], []] else [[c]]
    | r :: rs => if c = sep then [] :: r :: rs else (c :: r) :: rs

/-- `Number(str)` restricted to plain decimal numerals: any other input makes
the JavaScript code under study produce `NaN` (modelled `none`).  (JavaScript
`Number` also accepts signs, blanks, decimals and the empty string; none of
those occur in a well-formed `"HH:mm"` time, the only inputs the spec admits.) -/
def digitsToNat? (cs : List Char) : Option Nat :=
  if cs = [] then none
  else cs.foldl
    (fun acc c =>
      match acc with
      | none => none
      | some n => if c.isDigit then some (n * 10 + (c.toNat - 48)) else none)
    (some 0)

/-- Parse an `"HH:mm"` string the way `calculateReminderTime` does:
`eventStartTime.split(':').map(Number)` destructured to `[hours, minutes]`.
A component that is not a plain decimal numeral makes the JavaScript code
produce `NaN` and hence an invalid date; this is modelled as `none`. -/
def parseHM (s : String) : Option (Nat × Nat) :=
  let parts := (splitOnChar ':' s.data).map digitsToNat?
  match parts.get? 0, parts.get? 1 with
  | some (some h), some (some m) => some (h, m)
  | _, _ => none

/-- Embedding of `calculateReminderTime` (src/lib/reminders.ts, lines 276–303).

```
const now = new Date();
const currentDay = now.getDay();
let daysUntil = eventDayOfWeek - currentDay;
if (daysUntil < 0) daysUntil += 7;
const [hours, minutes] = eventStartTime.split(':').map(Number);
const eventDate = new Date(now);
eventDate.setDate(eventDate.getDate() + daysUntil);
eventDate.setHours(hours, minutes, 0, 0);
if (daysUntil === 0 && eventDate.getTime() <= now.getTime()) {
  eventDate.setDate(eventDate.getDate() + 7);
}
return eventDate.getTime() - (minutesBefore * 60 * 1000);
```

`setDate`/`setHours` amount to `startOfDayOf now + daysUntil * msPerDay +
(hours * 60 + minutes) * msPerMinute` (with `setHours` rolling over past
midnight for large components, which the addition reproduces).  The result is
an `Int` because the final subtraction may go below the event occurrence. -/
def calculateReminderTime (now : Nat) (eventDayOfWeek : Nat)
    (eventStartTime : String) (minutesBefore : Nat) : Option Int :=
  let currentDay := dayOfWeekOf now
  let daysUntil0 : Int := (eventDayOfWeek : Int) - (currentDay : Int)
  let daysUntil : Int := if daysUntil0 < 0 then daysUntil0 + 7 else daysUntil0
  match parseHM eventStartTime with
  | none => none
  | some (hours, minutes) =>
    let eventDate0 : Int :=
      (startOfDayOf now : Int) + daysUntil * (msPerDay : Int)
        + ((hours * 60 + minutes) * msPerMinute : Nat)
    let eventDate : Int :=
      if daysUntil = 0 ∧ eventDate0 ≤ (now : Int) then
        eventDate0 + 7 * (msPerDay : Int)
      else eventDate0
    some (eventDate - (minutesBefore * msPerMinute : Nat))

/-! ## Data model (src/lib/db.ts) -/

/-- `ClassEvent` record (db.ts).  `createdAt`/`updatedAt` bookkeeping stamps
are not read by the reminder core and are omitted. -/
structure ClassEvent where
  id : String
  title : String
  location : Option String
  dayOfWeek : Nat
  startTime : String
  endTime : String
  color : String
  reminderMinutes : List Nat
  voiceReminderEnabled : Bool
deriving Repr, DecidableEq

/-- `Reminder` record (db.ts). -/
structure Reminder where
  id : String
  eventId : String
  scheduledTime : Nat
  minutesBefore : Nat
  triggered : Bool
  missed : Bool
deriving Repr, DecidableEq

/-- The `AppSettings` fields the reminder core reads.  The db.ts interface has
no `alarmRetriggerInterval` field, yet reminders.ts reads
`settings.alarmRetriggerInterval || 15`; the field is therefore modelled as
optional (absent ≘ `undefined`).  Theme, volume and rate fields are carried by
alert effects only and are not modelled. -/
structure AppSettings where
  notificationsEnabled : Bool
  voiceRemindersEnabled : Bool
  alarmRetriggerInterval : Option Nat
deriving Repr, DecidableEq

/-- The durable store shared by the foreground page and the service worker:
the `events` and `reminders` object stores plus the settings record. -/
structure Db where
  events : List ClassEvent
  reminders : List Reminder
  settings : AppSettings
deriving Repr, DecidableEq

/-! JavaScript `Map` operations, modelled on insertion-ordered association
lists (`Map.set` replaces in place, `Map.delete` removes). -/

/-- `Map.get` on an association list. -/
def alookup {α : Type} (m : List (String × α)) (k : String) : Option α :=
  (m.find? (fun p => decide (p.1 = k))).map (fun p => p.2)

/-- `Map.set` on an association list: replace in place, else append. -/
def aset {α : Type} (m : List (String × α)) (k : String) (v : α) :
    List (String × α) :=
  if (m.find? (fun p => decide (p.1 = k))).isSome then
    m.map (fun p => if p.1 = k then (k, v) else p)
  else m ++ [(k, v)]

/-- `Map.delete` on an association list. -/
def aremove {α : Type} (m : List (String × α)) (k : String) :
    List (String × α) :=
  m.filter (fun p => decide (¬ p.1 = k))

/-- A `setInterval` handle: the callback closure captures the reminder id, the
alarm start time and the repeat interval.  `clearInterval h` removes the
timer with handle `h` from the live set. -/
structure Timer where
  handle : Nat
  reminderId : String
  startTime : Nat
  intervalMs : Nat
deriving Repr, DecidableEq

/-- Observable alert actions of the dispatcher, in program order:
`playNotificationBeep`, a `speakText` attempt, the `playReminderSound`
fallback tone, and a persistent notification (title, body, tag). -/
inductive Effect where
  | beep : Effect
  | speakAttempt (text : String) : Effect
  | fallbackTone : Effect
  | notify (title body tag : String) : Effect
deriving Repr, DecidableEq

/-! ## Store operations (db.ts) -/

/-- `getEvent(id)`: keyed lookup in the events store. -/
def getEvent (db : Db) (id : String) : Option ClassEvent :=
  db.events.find? (fun e => decide (e.id = id))

/-- `getUpcomingReminders(fromTime, toTime)` (db.ts, lines 231–237): all
reminders with `!r.triggered && fromTime <= r.scheduledTime <= toTime`.
(The source reads them through the by-scheduled index; the index ordering has
no bearing on the properties proved here and is not modelled.) -/
def getUpcomingReminders (db : Db) (fromTime toTime : Nat) : List Reminder :=
  db.reminders.filter (fun r =>
    decide (r.triggered = false ∧ fromTime ≤ r.scheduledTime ∧
      r.scheduledTime ≤ toTime))

/-- `markReminderTriggered(id, missed)` (db.ts, lines 245–251): whole-record
replace of the reminder with this key, setting `triggered := true` and
`missed := missed`; a no-op when the key is absent. -/
def markReminderTriggered (db : Db) (id : String) (missed : Bool) : Db :=
  { db with reminders := db.reminders.map (fun r =>
      if r.id = id then { r with triggered := true, missed := missed } else r) }

/-- The service worker's own `markReminderTriggered(reminderId)`: sets
`triggered := true` and leaves `missed` unchanged. -/
def swMarkReminderTriggered (db : Db) (id : String) : Db :=
  { db with reminders := db.reminders.map (fun r =>
      if r.id = id then { r with triggered := true } else r) }

/-- IndexedDB `put` on the reminders store: replace the record with the same
key if present, otherwise insert. -/
def putReminder (db : Db) (r : Reminder) : Db :=
  { db with reminders :=
      if db.reminders.any (fun x => decide (x.id = r.id)) then
        db.reminders.map (fun x => if x.id = r.id then r else x)
      else db.reminders ++ [r] }

/-- `deleteRemindersByEvent(eventId)` (db.ts, lines 258–264). -/
def deleteRemindersByEvent (db : Db) (eventId : String) : Db :=
  { db with reminders := db.reminders.filter (fun r =>
      decide (¬ r.eventId = eventId)) }

/-! ## Alert dispatcher and foreground alarm loop (src/lib/reminders.ts) -/

/-- The four greeting phrases of `humanizeReminderText`
(src/lib/audioFallback.ts, lines 158–163). -/
def greetings : List String :=
  ["Hey there! Just a quick heads up",
   "Hi! Friendly reminder",
   "Hello! Don\x27t forget",
   "Quick reminder for you"]

/-- The idiomatic time-offset phrase of `humanizeReminderText`. -/
def timePhraseFor (minutesBefore : Nat) : String :=
  if minutesBefore = 1 then "in just 1 minute"
  else if minutesBefore ≤ 5 then "in about " ++ toString minutesBefore ++ " minutes"
  else if minutesBefore = 10 then "in 10 minutes"
  else if minutesBefore = 15 then "in about 15 minutes"
  else if minutesBefore = 30 then "in half an hour"
  else if minutesBefore = 60 then "in about an hour"
  else "in " ++ toString minutesBefore ++ " minutes"

/-- `humanizeReminderText(eventTitle, minutesBefore, location)`
(audioFallback.ts, lines 153–192).  The `Math.random()` greeting draw is
passed as the explicit index `pick` (reduced mod the list length, as
`Math.floor(Math.random() * greetings.length)` guarantees a valid index). -/
def humanizeReminderText (pick : Nat) (eventTitle : String)
    (minutesBefore : Nat) (location : Option String) : String :=
  let greeting := (greetings.get? (pick % greetings.length)).getD ""
  let message := greeting ++ "! " ++ eventTitle ++ " is starting "
    ++ timePhraseFor minutesBefore
  let message :=
    match location with
    | some loc => message ++ ". Head over to " ++ loc
    | none => message
  message ++ ". You\x27ve got this!"

/-- `MAX_ALARM_DURATION = 5 * 60 * 1000` (reminders.ts, line 196). -/
def MAX_ALARM_DURATION : Nat := 5 * 60 * 1000

/-- The poller's 5-minute grace period (reminders.ts, line 228). -/
def gracePeriodMs : Nat := 5 * 60 * 1000

/-- The poller's `checkWindow = 60000` (reminders.ts, line 222). -/
def checkWindowMs : Nat := 60000

/-- `ALARM_REPEAT_INTERVAL = (settings.alarmRetriggerInterval || 15) * 1000`
(reminders.ts, line 157): `undefined` and `0` are both falsy, so the default
15 seconds applies to them. -/
def alarmRepeatIntervalMs (s : AppSettings) : Nat :=
  (match s.alarmRetriggerInterval with
   | some n => if n = 0 then 15 else n
   | none => 15) * 1000

/-- The `playAlarm` closure inside `triggerReminder` (lines 174–185): an
unconditional beep, then — when voice is enabled globally and for the event —
a speech attempt, falling back to the high-urgency tone when synthesis fails
(`speechOk = false`). -/
def playAlarmEffects (speechOk voiceEnabled : Bool) (msg : String) :
    List Effect :=
  Effect.beep ::
    (if voiceEnabled then
      (if speechOk then [Effect.speakAttempt msg]
       else [Effect.speakAttempt msg, Effect.fallbackTone])
     else [])

/-- Foreground page state: the shared store, the module-level `activeAlarms`
map (reminderId → interval handle), the set of live `setInterval` timers, and
a fresh-handle counter. -/
structure FgState where
  db : Db
  activeAlarms : List (String × Nat)
  liveTimers : List Timer
  nextHandle : Nat
deriving Repr, DecidableEq

/-- `acknowledgeReminder(reminderId)` (reminders.ts, lines 146–152): if the
`activeAlarms` map holds an interval for this id, `clearInterval` it and
delete the entry; otherwise do nothing. -/
def acknowledgeReminder (st : FgState) (reminderId : String) : FgState :=
  match alookup st.activeAlarms reminderId with
  | some interval =>
    { st with
        liveTimers := st.liveTimers.filter (fun t =>
          decide (¬ t.handle = interval)),
        activeAlarms := aremove st.activeAlarms reminderId }
  | none => st

/-- `triggerReminder(reminder)` (reminders.ts, lines 155–217).  Resolves the
owning event (missing event: mark triggered+missed, return); composes the
message; plays the alarm; shows the persistent notification when enabled;
installs the repeating alarm timer and records it in `activeAlarms` (note:
with no check whether an alarm for this id is already active); finally marks
the reminder triggered (the `missed` default `false`). -/
def triggerReminder (now : Nat) (speechOk : Bool) (pick : Nat)
    (st : FgState) (reminder : Reminder) : FgState × List Effect :=
  let settings := st.db.settings
  let repeatInterval := alarmRepeatIntervalMs settings
  match getEvent st.db reminder.eventId with
  | none => ({ st with db := markReminderTriggered st.db reminder.id true }, [])
  | some event =>
    let humanMessage :=
      humanizeReminderText pick event.title reminder.minutesBefore event.location
    let notificationTitle := "📚 " ++ event.title
    let voiceEnabled := settings.voiceRemindersEnabled && event.voiceReminderEnabled
    let fx := playAlarmEffects speechOk voiceEnabled humanMessage
      ++ (if settings.notificationsEnabled then
            [Effect.notify notificationTitle humanMessage reminder.id]
          else [])
    let timer : Timer :=
      { handle := st.nextHandle, reminderId := reminder.id,
        startTime := now, intervalMs := repeatInterval }
    ({ st with
        db := markReminderTriggered st.db reminder.id false,
        activeAlarms := aset st.activeAlarms reminder.id st.nextHandle,
        liveTimers := st.liveTimers ++ [timer],
        nextHandle := st.nextHandle + 1 }, fx)

/-- One firing of the repeating alarm callback installed by `triggerReminder`
(lines 199–212), for the timer `t`, at time `now`.  The closure parameters
(`voiceEnabled`, `notifEnabled`, message, title) are the values captured at
trigger time.  If the id is gone from `activeAlarms` the callback returns
without doing anything (the timer itself stays installed); past the 5-minute
ceiling it calls `acknowledgeReminder` and returns without rendering;
otherwise it re-plays the alarm and re-shows the notification. -/
def fgAlarmTick (now : Nat) (speechOk voiceEnabled notifEnabled : Bool)
    (msg title : String) (st : FgState) (t : Timer) : FgState × List Effect :=
  if alookup st.activeAlarms t.reminderId = none then (st, [])
  else if now - t.startTime > MAX_ALARM_DURATION then
    (acknowledgeReminder st t.reminderId, [])
  else
    (st, playAlarmEffects speechOk voiceEnabled msg
      ++ (if notifEnabled then [Effect.notify title msg t.reminderId] else []))

/-! ## Foreground poller (reminders.ts, `checkReminders`, lines 220–237) -/

/-- The body of the `for (const reminder of dueReminders)` loop: candidates
with `scheduledTime <= now && !triggered` are either finalized as missed
(stale beyond the grace period) or handed to `triggerReminder`.  The third
component records, as a trace, the ids for which `triggerReminder` was
invoked (the dispatch trace, needed to state at-most-once dispatch). -/
def processReminders (now : Nat) (speechOk : Bool) (pick : Nat) :
    FgState → List Reminder → FgState × List Effect × List String
  | st, [] => (st, [], [])
  | st, r :: rest =>
    if r.scheduledTime ≤ now ∧ r.triggered = false then
      if now - r.scheduledTime > gracePeriodMs then
        processReminders now speechOk pick
          { st with db := markReminderTriggered st.db r.id true } rest
      else
        let (st', fx) := triggerReminder now speechOk pick st r
        let (st'', fx2, ds) := processReminders now speechOk pick st' rest
        (st'', fx ++ fx2, r.id :: ds)
    else processReminders now speechOk pick st rest

/-- `checkReminders()` (reminders.ts, lines 220–237): query the store for
untriggered reminders inside `[now - 60000, now + 60000]`, then run the
dispatch loop over that snapshot. -/
def checkReminders (now : Nat) (speechOk : Bool) (pick : Nat) (st : FgState) :
    FgState × List Effect × List String :=
  processReminders now speechOk pick st
    (getUpcomingReminders st.db (now - checkWindowMs) (now + checkWindowMs))

/-! ## Background worker (the custom service worker) -/

/-- `ALARM_RE_TRIGGER_INTERVAL = 15000` (service worker, line 5). -/
def ALARM_RE_TRIGGER_INTERVAL : Nat := 15000

/-- An entry of the worker's `unacknowledgedReminders` map:
`{ intervalId, eventTitle, location, minutesBefore }`. -/
structure SwSession where
  intervalId : Nat
  eventTitle : String
  location : Option String
  minutesBefore : Nat
deriving Repr, DecidableEq

/-- Service-worker context state: the `unacknowledgedReminders` map, its live
`setInterval` timers, and a fresh-handle counter. -/
structure SwState where
  unacknowledged : List (String × SwSession)
  liveTimers : List Timer
  nextHandle : Nat
deriving Repr, DecidableEq

/-- `showAlarmNotification` (service worker, lines 124–144): a persistent
notification tagged `reminder-<id>` (same tag replaces the previous one). -/
def showAlarmNotification (reminderId eventTitle humanMessage : String) :
    Effect :=
  Effect.notify ("📚 " ++ eventTitle) humanMessage ("reminder-" ++ reminderId)

/-- `startAlarmLoop` (service worker, lines 147–165): a no-op when the id is
already in `unacknowledgedReminders`; otherwise show the notification at
once, install the 15-second repeating timer, and record the session. -/
def startAlarmLoop (now : Nat) (s : SwState) (reminderId eventTitle
    humanMessage : String) (location : Option String) (minutesBefore : Nat) :
    SwState × List Effect :=
  if (alookup s.unacknowledged reminderId).isSome then (s, [])
  else
    let fx := [showAlarmNotification reminderId eventTitle humanMessage]
    let t : Timer :=
      { handle := s.nextHandle, reminderId := reminderId,
        startTime := now, intervalMs := ALARM_RE_TRIGGER_INTERVAL }
    ({ unacknowledged := aset s.unacknowledged reminderId
         { intervalId := s.nextHandle, eventTitle := eventTitle,
           location := location, minutesBefore := minutesBefore },
       liveTimers := s.liveTimers ++ [t],
       nextHandle := s.nextHandle + 1 }, fx)

/-- One firing of the repeating callback installed by `startAlarmLoop`
(lines 155–162): when the id has left `unacknowledgedReminders` the callback
clears its own interval and stops; otherwise it re-shows the notification. -/
def swAlarmTick (s : SwState) (t : Timer) (eventTitle humanMessage : String) :
    SwState × List Effect :=
  if (alookup s.unacknowledged t.reminderId).isSome then
    (s, [showAlarmNotification t.reminderId eventTitle humanMessage])
  else
    ({ s with liveTimers := s.liveTimers.filter (fun x =>
        decide (¬ x.handle = t.handle)) }, [])

/-- The two independent execution contexts over the shared store: the
foreground page and the service worker.  They share no memory; the worker
reaches the page only through `postMessage`. -/
structure DualState where
  fg : FgState
  sw : SwState
deriving Repr, DecidableEq

/-- `stopAlarmLoop(reminderId)` (service worker, lines 168–180): clear and
drop the worker session if present, then post `REMINDER_ACKNOWLEDGED` to every
window client; the page's message handler (reminders.ts, lines 49–53) reacts
by calling `acknowledgeReminder`, which this definition inlines as the
delivered effect of that message. -/
def stopAlarmLoop (d : DualState) (reminderId : String) : DualState :=
  let sw' :=
    match alookup d.sw.unacknowledged reminderId with
    | some entry =>
      { d.sw with
          liveTimers := d.sw.liveTimers.filter (fun x =>
            decide (¬ x.handle = entry.intervalId)),
          unacknowledged := aremove d.sw.unacknowledged reminderId }
    | none => d.sw
  { fg := acknowledgeReminder d.fg reminderId, sw := sw' }

/-- An acknowledgment performed in the foreground context:
`acknowledgeReminder` (reminders.ts, lines 146–152) touches only the in-page
`activeAlarms` map and posts no message to the service worker. -/
def acknowledgeFromForeground (d : DualState) (reminderId : String) :
    DualState :=
  { d with fg := acknowledgeReminder d.fg reminderId }

/-! ## Single-session alarm run (for the timeout-ceiling property)

The repeating callback of `triggerReminder` observes, besides the clock, only
whether `activeAlarms` still holds the reminder id.  `alarmTick` is that
callback (reminders.ts, lines 199–212) with the map projected to this Boolean
and with ideal timer timing: the `k`-th firing of a `setInterval(f, i)` timer
happens at `startTime + k * i`, so `Date.now() - alarmStartTime = k * i`.
It returns (session still active, rendered an alert). -/

def alarmTick (maxDur intervalMs k : Nat) (active : Bool) : Bool × Bool :=
  if !active then (active, false)
  else if k * intervalMs > maxDur then (false, false)
  else (active, true)

/-- Run the callback firings `k, k+1, ..., k+n-1` in order, counting the
firings that rendered an alert. -/
def runAlarmTicksFrom (maxDur intervalMs : Nat) :
    Nat → Nat → Bool → Bool × Nat
  | _, 0, active => (active, 0)
  | k, n+1, active =>
    let step := alarmTick maxDur intervalMs k active
    let rest := runAlarmTicksFrom maxDur intervalMs (k+1) n step.1
    (rest.1, (if step.2 then 1 else 0) + rest.2)

/-- Run the first `n` firings of a fresh, never-acknowledged session. -/
def runAlarmTicks (maxDur intervalMs n : Nat) : Bool × Nat :=
  runAlarmTicksFrom maxDur intervalMs 1 n true

/-! ## Core reminder-record operations (for the flag invariants)

The operations through which the repository ever writes `Reminder` records:
creation from the event form (`handleSave`, EventForm.tsx, lines 124–138,
which calls `addReminder` with `triggered: false, missed: false`), the two
`markReminderTriggered` variants, and cascade deletion. -/

inductive ReminderOp where
  | create (id eventId : String) (scheduledTime minutesBefore : Nat)
  | markTriggered (id : String) (missed : Bool)
  | swMarkTriggered (id : String)
  | deleteForEvent (eventId : String)
deriving Repr, DecidableEq

/-- Apply one core reminder operation to the store. -/
def applyOp (db : Db) : ReminderOp → Db
  | .create id eventId scheduledTime minutesBefore =>
    putReminder db
      { id := id, eventId := eventId, scheduledTime := scheduledTime,
        minutesBefore := minutesBefore, triggered := false, missed := false }
  | .markTriggered id missed => markReminderTriggered db id missed
  | .swMarkTriggered id => swMarkReminderTriggered db id
  | .deleteForEvent eventId => deleteRemindersByEvent db eventId

/-- The ids present in the reminders store. -/
def idsOf (db : Db) : List String := db.reminders.map (fun r => r.id)

/-- Well-formedness of an operation against a store: `create` is issued with a
`generateId()` key, assumed fresh (IndexedDB `put` would otherwise replace an
arbitrary existing record). -/
def WfOp (db : Db) : ReminderOp → Prop
  | .create id _ _ _ => id ∉ idsOf db
  | _ => True

/-- The spec's data-model invariant: `triggered = false ⇒ missed = false`. -/
def invariantOk (db : Db) : Prop :=
  ∀ r ∈ db.reminders, r.triggered = false → r.missed = false

/-- Every record with this id (if any) is triggered. -/
def triggeredInDb (db : Db) (id : String) : Prop :=
  ∀ r ∈ db.reminders, r.id = id → r.triggered = true

/-! ## Helper lemmas on the map model -/

theorem alookup_aremove_self {α : Type} (m : List (String × α)) (k : String) :
    alookup (aremove m k) k = none := by
  induction m with
  | nil => rfl
  | cons p rest ih =>
    rw [aremove, List.filter_cons]
    by_cases hp : p.1 = k
    · rw [if_neg (by simp [hp])]
      exact ih
    · rw [if_pos (by simp [hp])]
      show alookup (p :: aremove rest k) k = none
      rw [alookup, List.find?_cons_of_neg _ (by simp [hp])]
      exact ih

theorem acknowledge_noop (st : FgState) (id : String)
    (h : alookup st.activeAlarms id = none) : acknowledgeReminder st id = st := by
  unfold acknowledgeReminder
  rw [h]

theorem alookup_after_acknowledge (st : FgState) (id : String) :
    alookup (acknowledgeReminder st id).activeAlarms id = none := by
  unfold acknowledgeReminder
  cases h : alookup st.activeAlarms id with
  | none => exact h
  | some v => exact alookup_aremove_self _ _

/-- A fixed settings record and an empty page state, used as concrete inputs. -/
def defaultSettings : AppSettings :=
  { notificationsEnabled := true, voiceRemindersEnabled := true,
    alarmRetriggerInterval := none }

/-- Empty page state over an empty store. -/
def emptyFg : FgState :=
  { db := { events := [], reminders := [], settings := defaultSettings },
    activeAlarms := [], liveTimers := [], nextHandle := 0 }

/-- A reminder whose owning event is absent from the store. -/
def danglingReminder : Reminder :=
  { id := "r1", eventId := "e1", scheduledTime := 0, minutesBefore := 10,
    triggered := false, missed := false }

/-- C10: `acknowledgeReminder` is total (a plain function on the session
state) and idempotent: with no active session for the id it returns the state
unchanged, and a second call in succession changes nothing further. -/
theorem acknowledge_reminder_idempotent (st : FgState) (id : String) :
    (alookup st.activeAlarms id = none → acknowledgeReminder st id = st) ∧
    acknowledgeReminder (acknowledgeReminder st id) id =
      acknowledgeReminder st id :=
  ⟨acknowledge_noop st id,
   acknowledge_noop _ id (alookup_after_acknowledge st id)⟩

theorem acknowledge_reminder_idempotent_witness :
    acknowledgeReminder emptyFg "r1" = emptyFg ∧
    acknowledgeReminder (acknowledgeReminder emptyFg "r1") "r1" =
      acknowledgeReminder emptyFg "r1" :=
  ⟨(acknowledge_reminder_idempotent emptyFg "r1").1 (by decide),
   (acknowledge_reminder_idempotent emptyFg "r1").2⟩

/-- C8: when the owning event cannot be resolved, `triggerReminder` marks the
reminder `triggered = true, missed = true` and returns with no alert effect
and no change to the alarm-session state. -/
theorem trigger_missing_event_finalizes_missed (now : Nat) (speechOk : Bool)
    (pick : Nat) (st : FgState) (r : Reminder)
    (h : getEvent st.db r.eventId = none) :
    (triggerReminder now speechOk pick st r).2 = [] ∧
    (triggerReminder now speechOk pick st r).1.activeAlarms = st.activeAlarms ∧
    (triggerReminder now speechOk pick st r).1.liveTimers = st.liveTimers ∧
    (triggerReminder now speechOk pick st r).1.db =
      markReminderTriggered st.db r.id true := by
  simp [triggerReminder, h]

theorem trigger_missing_event_finalizes_missed_witness :
    (triggerReminder 0 true 0 emptyFg danglingReminder).2 = [] ∧
    (triggerReminder 0 true 0 emptyFg danglingReminder).1.activeAlarms =
      emptyFg.activeAlarms ∧
    (triggerReminder 0 true 0 emptyFg danglingReminder).1.liveTimers =
      emptyFg.liveTimers ∧
    (triggerReminder 0 true 0 emptyFg danglingReminder).1.db =
      markReminderTriggered emptyFg.db danglingReminder.id true :=
  trigger_missing_event_finalizes_missed 0 true 0 emptyFg danglingReminder
    (by decide)

/-- C1 counterexample: with Monday 08:50 of the current week at model
timestamp 118200000 (day 1 of week 0), evaluating at Monday 08:51
(118260000) does NOT give Monday 08:50 of the next week
(118200000 + 7·86400000): the rollover test compares "now" with the event
start 09:00, not with the reminder time, so the already-past current-week
reminder time is returned. -/
theorem calc_monday_0851_not_next_week :
    ¬ calculateReminderTime 118260000 1 "09:00" 10 =
      some (118200000 + 7 * 86400000) := by decide

/-- C1 (amended): Monday 09:00 event with `minutesBefore = 10`: evaluated at
Monday 08:50, `calculateReminderTime` returns Monday 08:50 of the current
week; evaluated at Monday 08:51 it still returns Monday 08:50 of the
*current* week — a timestamp one minute in the past — because the next-week
rollover only fires once the event start time itself has passed. -/
theorem calc_monday_scenario :
    calculateReminderTime 118200000 1 "09:00" 10 = some 118200000 ∧
    calculateReminderTime 118260000 1 "09:00" 10 = some 118200000 :=
  ⟨by decide, by decide⟩

/-- C2: for any weekday `dow ≤ 6`, any well-formed `"HH:mm"` start time and
any `minutesBefore`, the result `t` of `calculateReminderTime` satisfies:
`t + minutesBefore·60000` (the event occurrence the reminder was derived
from) is strictly later than `now`, falls on weekday `dow`, and falls at
exactly the time of day `HH:mm` — the function never picks a past weekly
occurrence of the event. -/
theorem calc_reminder_time_correct (now dow mb h m : Nat) (s : String)
    (t : Int) (hdow : dow ≤ 6) (hp : parseHM s = some (h, m)) (hh : h < 24)
    (hm : m < 60) (ht : calculateReminderTime now dow s mb = some t) :
    (now : Int) < t + ((mb * msPerMinute : Nat) : Int) ∧
    dayOfWeekOf (t + ((mb * msPerMinute : Nat) : Int)).toNat = dow ∧
    msOfDay (t + ((mb * msPerMinute : Nat) : Int)).toNat =
      (h * 60 + m) * msPerMinute := by
  simp only [calculateReminderTime, hp, Option.some_inj] at ht
  subst ht
  simp only [dayOfWeekOf, msOfDay, startOfDayOf, msPerDay, msPerMinute]
  split_ifs with h1 h2 h3 <;> refine ⟨by omega, by omega, by omega⟩

theorem calc_reminder_time_correct_witness :
    ((118200000 : Nat) : Int) <
        118200000 + ((10 * msPerMinute : Nat) : Int) ∧
    dayOfWeekOf ((118200000 : Int) + ((10 * msPerMinute : Nat) : Int)).toNat = 1 ∧
    msOfDay ((118200000 : Int) + ((10 * msPerMinute : Nat) : Int)).toNat =
      (9 * 60 + 0) * msPerMinute :=
  calc_reminder_time_correct 118200000 1 10 9 0 "09:00" 118200000
    (by decide) (by decide) (by decide) (by decide) (by decide)

theorem runAlarmTicksFrom_inactive (maxDur intervalMs : Nat) :
    ∀ n k, runAlarmTicksFrom maxDur intervalMs k n false = (false, 0) := by
  intro n
  induction n with
  | zero => intro k; rfl
  | succ n ih =>
    intro k
    simp [runAlarmTicksFrom, alarmTick, ih]

theorem runAlarmTicksFrom_active (maxDur intervalMs : Nat)
    (hI : 0 < intervalMs) :
    ∀ n k, 1 ≤ k →
      ((runAlarmTicksFrom maxDur intervalMs k n true).2 =
        min n (maxDur / intervalMs + 1 - k)) ∧
      ((runAlarmTicksFrom maxDur intervalMs k n true).1 = true ↔
        (n = 0 ∨ k + n ≤ maxDur / intervalMs + 1)) := by
  intro n
  induction n with
  | zero =>
    intro k hk
    constructor
    · simp [runAlarmTicksFrom]
    · simp [runAlarmTicksFrom]
  | succ n ih =>
    intro k hk
    by_cases hcond : maxDur < k * intervalMs
    · have hTk : maxDur / intervalMs < k := (Nat.div_lt_iff_lt_mul hI).2 hcond
      have hstep : alarmTick maxDur intervalMs k true = (false, false) := by
        simp only [alarmTick]
        rw [if_neg (by simp), if_pos (by omega)]
      simp only [runAlarmTicksFrom, hstep, runAlarmTicksFrom_inactive]
      constructor
      · simp; omega
      · simp; omega
    · have hkT : k ≤ maxDur / intervalMs := by
        rw [Nat.le_div_iff_mul_le hI]; omega
      have hstep : alarmTick maxDur intervalMs k true = (true, true) := by
        simp only [alarmTick]
        rw [if_neg (by simp), if_neg (by omega)]
      obtain ⟨ih2, ih1⟩ := ih (k + 1) (by omega)
      simp only [runAlarmTicksFrom, hstep]
      constructor
      · simp only [ih2]; simp; omega
      · simp only [ih1]; simp; omega

/-- C6: a never-acknowledged session auto-stops at the 5-minute ceiling:
over any number `n` of callback firings the number of re-renders is
`min n (ceiling / retriggerInterval)` — so exactly `ceiling /
retriggerInterval` once `n` passes that bound, with every firing up to the
bound rendering; the session is still registered exactly while `n` has not
passed the bound; and the first firing past the ceiling force-acknowledges
(session dies) without rendering, after which `runAlarmTicksFrom_inactive`
firings render nothing. -/
theorem alarm_auto_stop_at_ceiling (intervalMs n : Nat) (hI : 0 < intervalMs) :
    ((runAlarmTicks MAX_ALARM_DURATION intervalMs n).2 =
      min n (MAX_ALARM_DURATION / intervalMs)) ∧
    ((runAlarmTicks MAX_ALARM_DURATION intervalMs n).1 = true ↔
      n ≤ MAX_ALARM_DURATION / intervalMs) ∧
    alarmTick MAX_ALARM_DURATION intervalMs
      (MAX_ALARM_DURATION / intervalMs + 1) true = (false, false) := by
  obtain ⟨h2, h1⟩ :=
    runAlarmTicksFrom_active MAX_ALARM_DURATION intervalMs hI n 1 (le_refl 1)
  refine ⟨?_, ?_, ?_⟩
  · rw [runAlarmTicks, h2]
    generalize MAX_ALARM_DURATION / intervalMs = T
    omega
  · rw [runAlarmTicks, h1]
    generalize MAX_ALARM_DURATION / intervalMs = T
    omega
  · have key : MAX_ALARM_DURATION <
        (MAX_ALARM_DURATION / intervalMs + 1) * intervalMs := by
      have d1 : intervalMs * (MAX_ALARM_DURATION / intervalMs) +
          MAX_ALARM_DURATION % intervalMs = MAX_ALARM_DURATION :=
        Nat.div_add_mod _ _
      have d2 : MAX_ALARM_DURATION % intervalMs < intervalMs :=
        Nat.mod_lt _ hI
      have d3 : (MAX_ALARM_DURATION / intervalMs + 1) * intervalMs =
          intervalMs * (MAX_ALARM_DURATION / intervalMs) + intervalMs := by ring
      omega
    simp only [alarmTick]
    rw [if_neg (by simp), if_pos key]

theorem alarm_auto_stop_at_ceiling_witness :
    ((runAlarmTicks MAX_ALARM_DURATION 15000 21).2 =
      min 21 (MAX_ALARM_DURATION / 15000)) ∧
    ((runAlarmTicks MAX_ALARM_DURATION 15000 21).1 = true ↔
      21 ≤ MAX_ALARM_DURATION / 15000) ∧
    alarmTick MAX_ALARM_DURATION 15000
      (MAX_ALARM_DURATION / 15000 + 1) true = (false, false) :=
  alarm_auto_stop_at_ceiling 15000 21 (by decide)

/-! ## Poller lemmas -/

theorem mem_markReminderTriggered_other (db : Db) (id : String) (b : Bool)
    (r : Reminder) (hr : r ∈ db.reminders) (hne : ¬ r.id = id) :
    r ∈ (markReminderTriggered db id b).reminders := by
  unfold markReminderTriggered
  have heq : (fun x => if x.id = id then
      { x with triggered := true, missed := b } else x) r = r := by
    simp [hne]
  exact heq ▸ List.mem_map_of_mem _ hr

theorem idsOf_markReminderTriggered (db : Db) (id : String) (b : Bool) :
    idsOf (markReminderTriggered db id b) = idsOf db := by
  unfold idsOf markReminderTriggered
  rw [List.map_map]
  apply List.map_congr_left
  intro a _
  by_cases h : a.id = id <;> simp [h]

theorem triggeredInDb_markReminderTriggered_self (db : Db) (id : String)
    (b : Bool) : triggeredInDb (markReminderTriggered db id b) id := by
  intro r hr hrid
  unfold markReminderTriggered at hr
  simp only [List.mem_map] at hr
  obtain ⟨r0, hr0, heq⟩ := hr
  by_cases h : r0.id = id
  · rw [if_pos h] at heq
    subst heq; rfl
  · rw [if_neg h] at heq
    subst heq; exact absurd hrid h

theorem triggeredInDb_mono_mark (db : Db) (id x : String) (b : Bool)
    (h : triggeredInDb db x) : triggeredInDb (markReminderTriggered db id b) x := by
  intro r hr hrid
  unfold markReminderTriggered at hr
  simp only [List.mem_map] at hr
  obtain ⟨r0, hr0, heq⟩ := hr
  by_cases hcase : r0.id = id
  · rw [if_pos hcase] at heq
    subst heq; rfl
  · rw [if_neg hcase] at heq
    subst heq; exact h r0 hr0 hrid

theorem triggerReminder_db (now : Nat) (sOk : Bool) (pick : Nat)
    (st : FgState) (r : Reminder) :
    ∃ b, (triggerReminder now sOk pick st r).1.db =
      markReminderTriggered st.db r.id b := by
  unfold triggerReminder
  cases h : getEvent st.db r.eventId with
  | none => exact ⟨true, rfl⟩
  | some ev => exact ⟨false, rfl⟩

theorem mem_getUpcomingReminders (db : Db) (a b : Nat) (r : Reminder)
    (h : r ∈ getUpcomingReminders db a b) :
    r ∈ db.reminders ∧ r.triggered = false ∧
      a ≤ r.scheduledTime ∧ r.scheduledTime ≤ b := by
  unfold getUpcomingReminders at h
  simp only [List.mem_filter, decide_eq_true_eq] at h
  exact ⟨h.1, h.2.1, h.2.2.1, h.2.2.2⟩

theorem processReminders_ids (now : Nat) (sOk : Bool) (pick : Nat) :
    ∀ rs st, idsOf (processReminders now sOk pick st rs).1.db = idsOf st.db := by
  intro rs
  induction rs with
  | nil => intro st; rfl
  | cons r rest ih =>
    intro st
    by_cases h1 : r.scheduledTime ≤ now ∧ r.triggered = false
    · by_cases h2 : now - r.scheduledTime > gracePeriodMs
      · simp only [processReminders, if_pos h1, if_pos h2]
        rw [ih]
        exact idsOf_markReminderTriggered st.db r.id true
      · rcases htr : triggerReminder now sOk pick st r with ⟨st', fx⟩
        obtain ⟨b, hdb⟩ := triggerReminder_db now sOk pick st r
        rw [htr] at hdb
        simp only [processReminders, if_pos h1, if_neg h2, htr]
        rw [ih, hdb]
        exact idsOf_markReminderTriggered st.db r.id b
    · simp only [processReminders, if_neg h1]
      exact ih st

theorem processReminders_mono (now : Nat) (sOk : Bool) (pick : Nat) :
    ∀ rs st x, triggeredInDb st.db x →
      triggeredInDb (processReminders now sOk pick st rs).1.db x := by
  intro rs
  induction rs with
  | nil => intro st x h; exact h
  | cons r rest ih =>
    intro st x h
    by_cases h1 : r.scheduledTime ≤ now ∧ r.triggered = false
    · by_cases h2 : now - r.scheduledTime > gracePeriodMs
      · simp only [processReminders, if_pos h1, if_pos h2]
        exact ih _ x (triggeredInDb_mono_mark st.db r.id x true h)
      · rcases htr : triggerReminder now sOk pick st r with ⟨st', fx⟩
        obtain ⟨b, hdb⟩ := triggerReminder_db now sOk pick st r
        rw [htr] at hdb
        simp only [processReminders, if_pos h1, if_neg h2, htr]
        apply ih
        rw [hdb]
        exact triggeredInDb_mono_mark st.db r.id x b h
    · simp only [processReminders, if_neg h1]
      exact ih st x h

theorem processReminders_dispatched_triggered (now : Nat) (sOk : Bool)
    (pick : Nat) : ∀ rs st x, x ∈ (processReminders now sOk pick st rs).2.2 →
      triggeredInDb (processReminders now sOk pick st rs).1.db x := by
  intro rs
  induction rs with
  | nil => intro st x h; exact absurd h (List.not_mem_nil x)
  | cons r rest ih =>
    intro st x h
    by_cases h1 : r.scheduledTime ≤ now ∧ r.triggered = false
    · by_cases h2 : now - r.scheduledTime > gracePeriodMs
      · simp only [processReminders, if_pos h1, if_pos h2] at h ⊢
        exact ih _ x h
      · rcases htr : triggerReminder now sOk pick st r with ⟨st', fx⟩
        obtain ⟨b, hdb⟩ := triggerReminder_db now sOk pick st r
        rw [htr] at hdb
        simp only [processReminders, if_pos h1, if_neg h2, htr] at h ⊢
        rcases List.mem_cons.1 h with hx | hx
        · subst hx
          apply processReminders_mono
          rw [hdb]
          exact triggeredInDb_markReminderTriggered_self st.db r.id b
        · exact ih _ x hx
    · simp only [processReminders, if_neg h1] at h ⊢
      exact ih st x h

theorem processReminders_dispatched_sublist (now : Nat) (sOk : Bool)
    (pick : Nat) : ∀ rs st,
      List.Sublist (processReminders now sOk pick st rs).2.2
        (rs.map (fun r => r.id)) := by
  intro rs
  induction rs with
  | nil => intro st; simp [processReminders]
  | cons r rest ih =>
    intro st
    by_cases h1 : r.scheduledTime ≤ now ∧ r.triggered = false
    · by_cases h2 : now - r.scheduledTime > gracePeriodMs
      · simp only [processReminders, if_pos h1, if_pos h2, List.map_cons]
        exact (ih _).cons r.id
      · rcases htr : triggerReminder now sOk pick st r with ⟨st', fx⟩
        simp only [processReminders, if_pos h1, if_neg h2, htr, List.map_cons]
        exact (ih _).cons₂ r.id
    · simp only [processReminders, if_neg h1, List.map_cons]
      exact (ih _).cons r.id

theorem no_dispatch_of_triggered (now : Nat) (sOk : Bool) (pick : Nat)
    (st : FgState) (x : String) (h : triggeredInDb st.db x) :
    x ∉ (checkReminders now sOk pick st).2.2 := by
  intro hx
  rw [checkReminders] at hx
  have hsub := processReminders_dispatched_sublist now sOk pick
    (getUpcomingReminders st.db (now - checkWindowMs) (now + checkWindowMs)) st
  have hx' := hsub.subset hx
  simp only [List.mem_map] at hx'
  obtain ⟨r, hr, hrid⟩ := hx'
  obtain ⟨hmem, hnt, _, _⟩ := mem_getUpcomingReminders _ _ _ _ hr
  have htr := h r hmem hrid
  rw [htr] at hnt
  cases hnt

theorem count_dispatch_le_one (now : Nat) (sOk : Bool) (pick : Nat)
    (st : FgState) (x : String) (hnodup : (idsOf st.db).Nodup) :
    ((checkReminders now sOk pick st).2.2).count x ≤ 1 := by
  rw [checkReminders]
  have hsub := processReminders_dispatched_sublist now sOk pick
    (getUpcomingReminders st.db (now - checkWindowMs) (now + checkWindowMs)) st
  have hdue : List.Sublist
      (getUpcomingReminders st.db (now - checkWindowMs) (now + checkWindowMs))
      st.db.reminders := List.filter_sublist _
  have h2 := hdue.map (fun r => r.id)
  have hnd := ((hsub.trans h2).nodup hnodup)
  exact List.nodup_iff_count_le_one.1 hnd x

/-- C4: invoking the poller twice in succession dispatches a given reminder id
to `triggerReminder` at most once in total: the first invocation only
dispatches untriggered candidates and persists `triggered = true` for each
dispatched id, so the second invocation (whatever its clock reading) cannot
re-dispatch it.  `hnodup` states that the store holds no duplicate reminder
keys — automatic for a keyed IndexedDB object store. -/
theorem poller_dispatches_at_most_once (now now2 : Nat) (sOk sOk2 : Bool)
    (p p2 : Nat) (st : FgState) (x : String)
    (hnodup : (idsOf st.db).Nodup) :
    ((checkReminders now sOk p st).2.2).count x +
      ((checkReminders now2 sOk2 p2 (checkReminders now sOk p st).1).2.2).count x
      ≤ 1 := by
  by_cases hx : x ∈ (checkReminders now sOk p st).2.2
  · have h1 : triggeredInDb (checkReminders now sOk p st).1.db x := by
      rw [checkReminders] at hx ⊢
      exact processReminders_dispatched_triggered now sOk p _ st x hx
    have h0 := no_dispatch_of_triggered now2 sOk2 p2 _ x h1
    have c2 : ((checkReminders now2 sOk2 p2
        (checkReminders now sOk p st).1).2.2).count x = 0 :=
      List.count_eq_zero.2 h0
    have c1 := count_dispatch_le_one now sOk p st x hnodup
    omega
  · have c1 : ((checkReminders now sOk p st).2.2).count x = 0 :=
      List.count_eq_zero.2 hx
    have hnodup2 : (idsOf (checkReminders now sOk p st).1.db).Nodup := by
      rw [checkReminders, processReminders_ids]
      exact hnodup
    have c2 := count_dispatch_le_one now2 sOk2 p2 _ x hnodup2
    omega

/-- A class event and a due, untriggered reminder for it, with the poller
evaluated right at the scheduled time. -/
def dueEvent : ClassEvent :=
  { id := "e1", title := "Math", location := none, dayOfWeek := 1,
    startTime := "09:00", endTime := "10:00", color := "coral",
    reminderMinutes := [10], voiceReminderEnabled := false }

def dueReminder : Reminder :=
  { id := "r1", eventId := "e1", scheduledTime := 100000, minutesBefore := 10,
    triggered := false, missed := false }

def dueSt : FgState :=
  { db := { events := [dueEvent], reminders := [dueReminder],
            settings := defaultSettings },
    activeAlarms := [], liveTimers := [], nextHandle := 0 }

theorem poller_dispatches_at_most_once_witness :
    ((checkReminders 100000 true 0 dueSt).2.2).count "r1" +
      ((checkReminders 100000 true 0 (checkReminders 100000 true 0 dueSt).1).2.2).count "r1"
      ≤ 1 :=
  poller_dispatches_at_most_once 100000 100000 true true 0 0 dueSt "r1"
    (by decide)

theorem processReminders_preserves_other (now : Nat) (sOk : Bool) (pick : Nat) :
    ∀ rs st (r : Reminder), r ∈ st.db.reminders → (∀ d ∈ rs, ¬ d.id = r.id) →
      r ∈ (processReminders now sOk pick st rs).1.db.reminders := by
  intro rs
  induction rs with
  | nil => intro st r hmem _; exact hmem
  | cons d rest ih =>
    intro st r hmem hout
    have hdr : ¬ d.id = r.id := hout d (List.mem_cons_self d rest)
    have hout' : ∀ e ∈ rest, ¬ e.id = r.id := fun e he =>
      hout e (List.mem_cons_of_mem d he)
    have hrne : ¬ r.id = d.id := fun h => hdr h.symm
    by_cases h1 : d.scheduledTime ≤ now ∧ d.triggered = false
    · by_cases h2 : now - d.scheduledTime > gracePeriodMs
      · simp only [processReminders, if_pos h1, if_pos h2]
        exact ih _ r (mem_markReminderTriggered_other st.db d.id true r hmem hrne) hout'
      · rcases htr : triggerReminder now sOk pick st d with ⟨st', fx⟩
        obtain ⟨b, hdb⟩ := triggerReminder_db now sOk pick st d
        rw [htr] at hdb
        simp only [processReminders, if_pos h1, if_neg h2, htr]
        apply ih _ r _ hout'
        rw [hdb]
        exact mem_markReminderTriggered_other st.db d.id b r hmem hrne
    · simp only [processReminders, if_neg h1]
      exact ih st r hmem hout'

/-- C3 (amended): a stored reminder with `triggered = false` that is already
more than the 5-minute grace period past due is never handed to
`triggerReminder` by one poller invocation — but neither is it marked: it lies
outside the poller's ±60-second query window (`checkWindowMs <
gracePeriodMs`), is not selected at all, and survives the invocation
unchanged, still `triggered = false`. -/
theorem stale_reminder_never_dispatched (now : Nat) (sOk : Bool) (pick : Nat)
    (st : FgState) (r : Reminder) (hmem : r ∈ st.db.reminders)
    (hnt : r.triggered = false)
    (hstale : now - r.scheduledTime > gracePeriodMs)
    (hnodup : (idsOf st.db).Nodup) :
    r.id ∉ (checkReminders now sOk pick st).2.2 ∧
    r ∈ (checkReminders now sOk pick st).1.db.reminders := by
  have hout : ∀ d ∈ getUpcomingReminders st.db (now - checkWindowMs)
      (now + checkWindowMs), ¬ d.id = r.id := by
    intro d hd hdid
    obtain ⟨hdmem, hdnt, hdlo, hdhi⟩ := mem_getUpcomingReminders _ _ _ _ hd
    have hdr : d = r := List.inj_on_of_nodup_map hnodup hdmem hmem hdid
    subst hdr
    unfold gracePeriodMs at hstale
    unfold checkWindowMs at hdlo
    omega
  constructor
  · intro hx
    rw [checkReminders] at hx
    have hsub := processReminders_dispatched_sublist now sOk pick
      (getUpcomingReminders st.db (now - checkWindowMs) (now + checkWindowMs)) st
    have hx' := hsub.subset hx
    simp only [List.mem_map] at hx'
    obtain ⟨d, hd, hdid⟩ := hx'
    exact hout d hd hdid
  · rw [checkReminders]
    exact processReminders_preserves_other now sOk pick _ st r hmem hout

/-- A reminder 400 seconds past due (beyond the 5-minute grace period). -/
def staleSt : FgState :=
  { db := { events := [dueEvent],
            reminders := [{ id := "r1", eventId := "e1", scheduledTime := 0,
                            minutesBefore := 10, triggered := false,
                            missed := false }],
            settings := defaultSettings },
    activeAlarms := [], liveTimers := [], nextHandle := 0 }

theorem stale_reminder_never_dispatched_witness :
    ("r1" : String) ∉ (checkReminders 400000 true 0 staleSt).2.2 ∧
    ({ id := "r1", eventId := "e1", scheduledTime := 0, minutesBefore := 10,
       triggered := false, missed := false } : Reminder) ∈
      (checkReminders 400000 true 0 staleSt).1.db.reminders :=
  stale_reminder_never_dispatched 400000 true 0 staleSt
    { id := "r1", eventId := "e1", scheduledTime := 0, minutesBefore := 10,
      triggered := false, missed := false }
    (by decide) (by decide) (by decide) (by decide)

/-- C3 counterexample: one poller invocation at `now = 400000` over a store
whose only reminder is untriggered and 400 seconds stale (beyond the 5-minute
grace period) leaves the store byte-for-byte unchanged — the reminder is NOT
marked `triggered = true, missed = true` (it is outside the ±60 s query
window), and nothing is dispatched. -/
theorem stale_reminder_untouched_cex :
    (checkReminders 400000 true 0 staleSt).1 = staleSt ∧
    (checkReminders 400000 true 0 staleSt).2.2 = [] ∧
    ((checkReminders 400000 true 0 staleSt).1.db.reminders.map
      (fun r => (r.id, r.triggered, r.missed))) = [("r1", false, false)] := by
  refine ⟨by decide, by decide, by decide⟩

/-- C9: the reminder-flag invariants across the core write operations, on a
store with duplicate-free reminder keys (`hnodup`, automatic for a keyed
IndexedDB object store): (1) every operation preserves
`triggered = false → missed = false`; (2) the `triggered` flag is monotonic —
an id with a triggered record is never reverted to untriggered by any
operation (`create` is issued with a fresh `generateId()` key, `hwf`);
(3) creation from the event form appends the record with
`triggered = false, missed = false` exactly as given. -/
theorem reminder_core_ops_invariant (db : Db) (op : ReminderOp)
    (hwf : WfOp db op) (hnodup : (idsOf db).Nodup) :
    (invariantOk db → invariantOk (applyOp db op)) ∧
    (∀ x, (∃ r ∈ db.reminders, r.id = x ∧ r.triggered = true) →
      triggeredInDb (applyOp db op) x) ∧
    (∀ id eid s mb, id ∉ idsOf db →
      (applyOp db (ReminderOp.create id eid s mb)).reminders =
        db.reminders ++ [{ id := id, eventId := eid, scheduledTime := s,
                           minutesBefore := mb, triggered := false,
                           missed := false }]) := by
  have hcreate : ∀ id eid s mb, id ∉ idsOf db →
      (applyOp db (ReminderOp.create id eid s mb)).reminders =
        db.reminders ++ [{ id := id, eventId := eid, scheduledTime := s,
                           minutesBefore := mb, triggered := false,
                           missed := false }] := by
    intro id eid s mb hid
    have hany : (db.reminders.any fun x => decide (x.id = id)) = false := by
      rw [List.any_eq_false]
      intro r hr
      simp only [decide_eq_true_eq]
      intro hrid
      exact hid (hrid ▸ List.mem_map_of_mem _ hr)
    simp only [applyOp, putReminder, hany]
    simp
  refine ⟨?_, ?_, hcreate⟩
  · intro hinv
    cases op with
    | create id eid s mb =>
      intro r hr
      rw [hcreate id eid s mb hwf] at hr
      rcases List.mem_append.1 hr with h | h
      · exact hinv r h
      · rcases List.mem_singleton.1 h with rfl
        intro _; rfl
    | markTriggered id b =>
      intro r hr
      simp only [applyOp, markReminderTriggered, List.mem_map] at hr
      obtain ⟨r0, hr0, heq⟩ := hr
      by_cases hcase : r0.id = id
      · rw [if_pos hcase] at heq
        subst heq
        intro h; cases h
      · rw [if_neg hcase] at heq
        subst heq
        exact hinv r0 hr0
    | swMarkTriggered id =>
      intro r hr
      simp only [applyOp, swMarkReminderTriggered, List.mem_map] at hr
      obtain ⟨r0, hr0, heq⟩ := hr
      by_cases hcase : r0.id = id
      · rw [if_pos hcase] at heq
        subst heq
        intro h; cases h
      · rw [if_neg hcase] at heq
        subst heq
        exact hinv r0 hr0
    | deleteForEvent eid =>
      intro r hr
      exact hinv r (List.mem_of_mem_filter hr)
  · intro x hx
    obtain ⟨r, hrmem, hrid, hrtrig⟩ := hx
    cases op with
    | create id eid s mb =>
      intro r' hr' hr'id
      rw [hcreate id eid s mb hwf] at hr'
      rcases List.mem_append.1 hr' with h | h
      · have : r' = r :=
          List.inj_on_of_nodup_map hnodup h hrmem (by rw [hr'id, hrid])
        rw [this]; exact hrtrig
      · rcases List.mem_singleton.1 h with rfl
        have hid : id = x := hr'id
        have hmem2 : id ∈ idsOf db := by
          rw [hid, ← hrid]
          exact List.mem_map_of_mem _ hrmem
        exact absurd hmem2 hwf
    | markTriggered id b =>
      intro r' hr' hr'id
      simp only [applyOp, markReminderTriggered, List.mem_map] at hr'
      obtain ⟨r0, hr0, heq⟩ := hr'
      by_cases hcase : r0.id = id
      · rw [if_pos hcase] at heq
        subst heq; rfl
      · rw [if_neg hcase] at heq
        subst heq
        have : r0 = r :=
          List.inj_on_of_nodup_map hnodup hr0 hrmem (by rw [hr'id, hrid])
        rw [this]; exact hrtrig
    | swMarkTriggered id =>
      intro r' hr' hr'id
      simp only [applyOp, swMarkReminderTriggered, List.mem_map] at hr'
      obtain ⟨r0, hr0, heq⟩ := hr'
      by_cases hcase : r0.id = id
      · rw [if_pos hcase] at heq
        subst heq; rfl
      · rw [if_neg hcase] at heq
        subst heq
        have : r0 = r :=
          List.inj_on_of_nodup_map hnodup hr0 hrmem (by rw [hr'id, hrid])
        rw [this]; exact hrtrig
    | deleteForEvent eid =>
      intro r' hr' hr'id
      have hr'mem := List.mem_of_mem_filter hr'
      have : r' = r :=
        List.inj_on_of_nodup_map hnodup hr'mem hrmem (by rw [hr'id, hrid])
      rw [this]; exact hrtrig

theorem reminder_core_ops_invariant_witness :
    (invariantOk dueSt.db →
      invariantOk (applyOp dueSt.db (ReminderOp.markTriggered "r1" false))) ∧
    (∀ x, (∃ r ∈ dueSt.db.reminders, r.id = x ∧ r.triggered = true) →
      triggeredInDb (applyOp dueSt.db (ReminderOp.markTriggered "r1" false)) x) ∧
    (∀ id eid s mb, id ∉ idsOf dueSt.db →
      (applyOp dueSt.db (ReminderOp.create id eid s mb)).reminders =
        dueSt.db.reminders ++ [{ id := id, eventId := eid, scheduledTime := s,
                                 minutesBefore := mb, triggered := false,
                                 missed := false }]) :=
  reminder_core_ops_invariant dueSt.db (ReminderOp.markTriggered "r1" false)
    trivial (by decide)

/-! ## Session uniqueness (C5) and cross-context acknowledgment (C7) -/

/-- C5 (amended): in the background worker, `startAlarmLoop` for a reminderId
that already has an active session is a no-op (state unchanged, nothing
shown).  The foreground `triggerReminder` has no such guard: whenever the
owning event resolves it unconditionally installs a fresh repeating timer —
appending it to the live set even when a timer for the same reminderId is
already running (the map entry is merely rebound, the old timer is never
cleared), so the foreground can hold several live alarm timers for one id. -/
theorem alarm_session_start_guard :
    (∀ now (s : SwState) id title msg loc mb,
      (alookup s.unacknowledged id).isSome = true →
      startAlarmLoop now s id title msg loc mb = (s, [])) ∧
    (∀ now sOk pick (st : FgState) (r : Reminder) ev,
      getEvent st.db r.eventId = some ev →
      (triggerReminder now sOk pick st r).1.liveTimers =
        st.liveTimers ++ [{ handle := st.nextHandle, reminderId := r.id,
                            startTime := now,
                            intervalMs := alarmRepeatIntervalMs st.db.settings }]) := by
  constructor
  · intro now s id title msg loc mb h
    unfold startAlarmLoop
    rw [if_pos h]
  · intro now sOk pick st r ev hev
    simp only [triggerReminder, hev]

/-- A background session map already holding a session for `"r1"`. -/
def swWithSession : SwState :=
  { unacknowledged := [("r1", { intervalId := 0, eventTitle := "Math",
                                location := none, minutesBefore := 10 })],
    liveTimers := [{ handle := 0, reminderId := "r1", startTime := 0,
                     intervalMs := 15000 }],
    nextHandle := 1 }

theorem alarm_session_start_guard_witness :
    startAlarmLoop 60000 swWithSession "r1" "Math" "msg" none 10 =
      (swWithSession, []) ∧
    (triggerReminder 100000 true 0 dueSt dueReminder).1.liveTimers =
      dueSt.liveTimers ++ [{ handle := dueSt.nextHandle,
                             reminderId := dueReminder.id,
                             startTime := 100000,
                             intervalMs := alarmRepeatIntervalMs dueSt.db.settings }] :=
  ⟨alarm_session_start_guard.1 60000 swWithSession "r1" "Math" "msg" none 10
      (by decide),
   alarm_session_start_guard.2 100000 true 0 dueSt dueReminder dueEvent
      (by decide)⟩

/-- C5 counterexample: calling the foreground dispatcher twice for the same
reminder is not a no-op and leaves TWO live repeating alarm timers for
`"r1"` (the first timer is leaked: it stays installed and, since the
`activeAlarms` map still holds the id, its next firing still renders an
alert), refuting "at most one active repeating-alarm session per reminderId"
for the foreground context. -/
theorem foreground_double_trigger_cex :
    ¬ (triggerReminder 100000 true 0
        (triggerReminder 100000 true 0 dueSt dueReminder).1 dueReminder).1 =
      (triggerReminder 100000 true 0 dueSt dueReminder).1 ∧
    ((triggerReminder 100000 true 0
        (triggerReminder 100000 true 0 dueSt dueReminder).1 dueReminder).1.liveTimers.filter
      (fun t => decide (t.reminderId = "r1"))).length = 2 ∧
    (fgAlarmTick 115000 true false false "m" "t"
      (triggerReminder 100000 true 0
        (triggerReminder 100000 true 0 dueSt dueReminder).1 dueReminder).1
      { handle := 0, reminderId := "r1", startTime := 100000,
        intervalMs := 15000 }).2 ≠ [] := by
  refine ⟨by decide, by decide, by decide⟩

/-- Both contexts holding an active alarm session for `"r1"`. -/
def dualBoth : DualState :=
  { fg := { db := dueSt.db, activeAlarms := [("r1", 0)],
            liveTimers := [{ handle := 0, reminderId := "r1",
                             startTime := 100000, intervalMs := 15000 }],
            nextHandle := 1 },
    sw := swWithSession }

/-- C7 counterexample: acknowledging in the foreground
(`acknowledgeReminder`) does not reach the background worker: the worker
state is untouched, its session for the id survives, and its next timer
firing still renders a notification — so "no further tone, speech or
notification in any execution context" fails, and the foreground sends no
acknowledgment message to the worker at all. -/
theorem fg_ack_does_not_reach_worker_cex :
    (acknowledgeFromForeground dualBoth "r1").sw = dualBoth.sw ∧
    (alookup (acknowledgeFromForeground dualBoth "r1").sw.unacknowledged
      "r1").isSome = true ∧
    (swAlarmTick (acknowledgeFromForeground dualBoth "r1").sw
      { handle := 0, reminderId := "r1", startTime := 0, intervalMs := 15000 }
      "Math" "msg").2 ≠ [] := by
  refine ⟨by decide, by decide, by decide⟩

/-- C7 (amended): acknowledgment initiated in the *background* worker
(`stopAlarmLoop`, also run for the notification "ok" action) tears down both
contexts: the worker session is removed and its timer cleared, the
`REMINDER_ACKNOWLEDGED` message relayed to the window tears down the
foreground session, and afterwards a timer firing for this reminderId renders
nothing in either context.  Acknowledgment initiated in the *foreground*
(`acknowledgeReminder`) tears down only the foreground session: no message is
sent to the worker and the worker state is unchanged. -/
theorem background_ack_stops_both (d : DualState) (id : String) (t : Timer)
    (ht : t.reminderId = id) :
    alookup (stopAlarmLoop d id).sw.unacknowledged id = none ∧
    alookup (stopAlarmLoop d id).fg.activeAlarms id = none ∧
    (∀ title msg, (swAlarmTick (stopAlarmLoop d id).sw t title msg).2 = []) ∧
    (∀ now sOk vE nE msg title,
      (fgAlarmTick now sOk vE nE msg title (stopAlarmLoop d id).fg t).2 = []) ∧
    (acknowledgeFromForeground d id).sw = d.sw := by
  have hswnone : alookup (stopAlarmLoop d id).sw.unacknowledged id = none := by
    simp only [stopAlarmLoop]
    cases h : alookup d.sw.unacknowledged id with
    | none => exact h
    | some e => exact alookup_aremove_self _ _
  have hfgnone : alookup (stopAlarmLoop d id).fg.activeAlarms id = none :=
    alookup_after_acknowledge d.fg id
  refine ⟨hswnone, hfgnone, ?_, ?_, rfl⟩
  · intro title msg
    unfold swAlarmTick
    rw [ht, hswnone]
    simp
  · intro now sOk vE nE msg title
    unfold fgAlarmTick
    rw [ht]
    rw [if_pos hfgnone]

theorem background_ack_stops_both_witness :
    alookup (stopAlarmLoop dualBoth "r1").sw.unacknowledged "r1" = none ∧
    alookup (stopAlarmLoop dualBoth "r1").fg.activeAlarms "r1" = none ∧
    (∀ title msg, (swAlarmTick (stopAlarmLoop dualBoth "r1").sw
      { handle := 0, reminderId := "r1", startTime := 100000,
        intervalMs := 15000 } title msg).2 = []) ∧
    (∀ now sOk vE nE msg title,
      (fgAlarmTick now sOk vE nE msg title (stopAlarmLoop dualBoth "r1").fg
        { handle := 0, reminderId := "r1", startTime := 100000,
          intervalMs := 15000 }).2 = []) ∧
    (acknowledgeFromForeground dualBoth "r1").sw = dualBoth.sw :=
  background_ack_stops_both dualBoth "r1"
    { handle := 0, reminderId := "r1", startTime := 100000,
      intervalMs := 15000 } (by decide)
